import Mathlib

/-!
# Verification of the 2GISBackend calm-route pipeline

Shallow embedding of `backend/app/services/calm_route_service.py` and
`backend/app/services/routing_service.py` (the route-avoidance pipeline:
violation detection, polygon merging, route conversion and the calm-score
formulas), together with proofs of the specification claims about them.

Conventions of the embedding:
* Python numbers are modelled as `ℚ` (metric values) and `ℤ` (counts,
  distances, durations); `round(x, 1)` is Python's banker's rounding to one
  decimal, modelled exactly by `round1`.
* External collaborators (the 2GIS routing provider, the shapely geometric
  predicates `intersects` / `union`, the layer provider) are parameters of
  the embedded functions, so theorems quantify over their behaviour.
* A Python function that can implicitly return `None` is modelled with
  result type `Option _`.
-/

namespace CalmRoute

/-- Python's `round` to an integer: round half to even (banker's rounding). -/
def roundHalfEven (q : ℚ) : ℤ :=
  let f := ⌊q⌋
  let frac := q - (f : ℚ)
  if frac < 1/2 then f
  else if 1/2 < frac then f + 1
  else if f % 2 = 0 then f else f + 1

/-- Python's `round(x, 1)`: round to one decimal place, half to even. -/
def round1 (q : ℚ) : ℚ := (roundHalfEven (q * 10) : ℚ) / 10

/-- `RouteMetrics` from `backend/app/schemas/routing.py`. -/
structure RouteMetrics where
  distance_m : ℤ
  duration_min : ℤ
  avg_noise_db : ℚ
  avg_crowd : ℚ
deriving Repr, DecidableEq

/-- `RoutePriorities` from `backend/app/schemas/routing.py` (weights for the
weighted calm-score variant; pydantic defaults noise=0.5, crowd=0.4,
distance=0.1, all fields always present after `model_dump()`). -/
structure RoutePriorities where
  noise : ℚ
  crowd : ℚ
  distance : ℚ
deriving Repr, DecidableEq

/-- `CalmRouteService._calculate_calm_score` (calm_route_service.py lines
444-453): the fixed 0.6/0.4 weighted score with rounding and clamping. -/
def calculateCalmScore (metrics : RouteMetrics) : ℚ :=
  let noise_score := max 0 (10 - (metrics.avg_noise_db - 40) / 5)
  let crowd_score := 10 - (metrics.avg_crowd - 1) * 2.5
  let calm_score := (noise_score * 0.6 + crowd_score * 0.4) * 10
  min 10 (max 0 (round1 calm_score))

/-- `RoutingService._calculate_calm_score` (routing_service.py lines 108-124):
the weighted variant with a distance term; `priorities.get("noise", 0.5)`
etc. always find the key because the pydantic model supplies defaults, so the
weights are the profile's priority fields. No rounding in this variant. -/
def calculateWeightedCalmScore (metrics : RouteMetrics)
    (priorities : RoutePriorities) : ℚ :=
  let noise_score := max 0 (10 - (metrics.avg_noise_db - 40) / 5)
  let crowd_score := 10 - (metrics.avg_crowd - 1) * 2.5
  let distance_score := max 0 (10 - ((metrics.distance_m : ℚ) - 1000) / 100)
  let calm_score :=
    (noise_score * priorities.noise + crowd_score * priorities.crowd +
      distance_score * priorities.distance) * 10
  min 10 (max 0 calm_score)

/-! ## Spec-side restatement of the calm-score formula (§4.5 of the spec),
written from the spec's words, to be compared with the code-side
`calculateCalmScore`. -/

/-- `clamp(lo, hi, x)` as the spec writes it. -/
def clamp (lo hi x : ℚ) : ℚ := min hi (max lo x)

/-- Spec formula: `noiseScore = max(0, 10 − (avgNoiseDb − 40)/5)`. -/
def specNoiseScore (avgNoiseDb : ℚ) : ℚ := max 0 (10 - (avgNoiseDb - 40) / 5)

/-- Spec formula: `crowdScore = 10 − (avgCrowd − 1) × 2.5`. -/
def specCrowdScore (avgCrowd : ℚ) : ℚ := 10 - (avgCrowd - 1) * 2.5

/-- Spec formula:
`calmScore = clamp(0, 10, round((noiseScore×0.6 + crowdScore×0.4) × 10, 1))`. -/
def specCalmScore (m : RouteMetrics) : ℚ :=
  clamp 0 10
    (round1 ((specNoiseScore m.avg_noise_db * 0.6 +
      specCrowdScore m.avg_crowd * 0.4) * 10))

/-! ## Polygon merger (`CalmRouteService._merge_intersecting_polygons`,
calm_route_service.py lines 116-225)

Rings are lists of coordinate entries; each entry should be a `[lon, lat]`
pair but malformed inputs may have entries of other lengths, which is what the
source's `len(coords[0]) == 2` check guards against.  The shapely geometric
operations `Polygon.intersects` and `Polygon.union` are abstracted as the
parameters `inter` (a boolean test on closed rings) and `unionFn` (the left
fold of pairwise unions over a cluster's rings, returning the exterior-ring
coordinates of the result, or `none` when the operation raises or the result
has no exterior ring). -/

/-- A coordinate entry of a ring (well-formed: `[lon, lat]`). -/
abbrev Coord := List ℚ

/-- A polygon ring: an ordered list of coordinate entries. -/
abbrev Ring := List Coord

/-- The problematic-polygon dictionaries flowing through the pipeline:
`{"id": ..., "type": ..., "coordinates": ..., "reason": ...}`. -/
structure RawPoly where
  id : String
  ptype : String
  coordinates : Ring
  reason : String
deriving Repr, DecidableEq

/-- The per-polygon record the merger builds after validating a polygon:
`{"index": i, "polygon": shapely_poly, "original": poly}`; the shapely
polygon is represented by the closed ring it was constructed from. -/
structure ParsedPoly where
  index : Nat
  ring : Ring
  original : RawPoly
deriving Repr, DecidableEq

/-- Ring closure (lines 139-140):
`if coords[0] != coords[-1]: coords = coords + [coords[0]]`. -/
def closeRing : Ring → Ring
  | [] => []
  | c0 :: cs =>
    if (c0 :: cs).getLast? ≠ some c0 then (c0 :: cs) ++ [c0] else c0 :: cs

/-- The validation/normalization performed on one polygon of the merger's
input (lines 131-154): require at least 3 coordinate entries and a
2-element first entry, close the ring if it is open
(`coords + [coords[0]]`), and record the original.  `polyOk` abstracts
whether the shapely `Polygon(coords)` construction succeeds on the closed
ring (it raises e.g. on mixed-arity later entries); the whole loop body sits
in a per-polygon `try/except`, so a construction failure is the same skip
(`none`) as a failed explicit check. -/
def parseOne (polyOk : Ring → Bool) (i : Nat) (p : RawPoly) :
    Option ParsedPoly :=
  match p.coordinates with
  | [] => none
  | c0 :: cs =>
    if 3 ≤ (c0 :: cs).length then
      if c0.length = 2 then
        if polyOk (closeRing (c0 :: cs)) then
          some ⟨i, closeRing (c0 :: cs), p⟩
        else none
      else none
    else none

/-- The merger's first loop, `for i, poly in enumerate(polygons)` with the
per-polygon validation of `parseOne`. -/
def parsePolysFrom (polyOk : Ring → Bool) :
    Nat → List RawPoly → List ParsedPoly
  | _, [] => []
  | i, p :: ps =>
    match parseOne polyOk i p with
    | some pp => pp :: parsePolysFrom polyOk (i + 1) ps
    | none => parsePolysFrom polyOk (i + 1) ps

/-- The list `shapely_polygons` built from the merger's input. -/
def parsePolys (polyOk : Ring → Bool) (polygons : List RawPoly) :
    List ParsedPoly :=
  parsePolysFrom polyOk 0 polygons

/-- The grouping loops of lines 159-181, written with explicit fuel (the
initial list length) so the definition is structural.  Each step takes the
first not-yet-used polygon as a seed and adds exactly the remaining polygons
that intersect the *seed* — newly added members are never re-tested, which is
precisely the `used_indices` semantics of the source. -/
def groupBySeedAux {α : Type} (inter : α → α → Bool) :
    Nat → List α → List (List α)
  | _, [] => []
  | 0, _ :: _ => []
  | fuel + 1, p :: rest =>
      (p :: rest.filter (fun q => inter p q)) ::
        groupBySeedAux inter fuel (rest.filter (fun q => !inter p q))

/-- Single-link-from-the-seed clustering over an intersection test. -/
def groupBySeed {α : Type} (inter : α → α → Bool) (l : List α) :
    List (List α) :=
  groupBySeedAux inter l.length l

/-- Lines 183-223: emit one output polygon per cluster.  A singleton cluster
passes its original through; a larger cluster is unioned, its exterior ring
normalized (drop a duplicated closing point, then re-close), and emitted as a
`merged_<k>` polygon; every failure path (union raised / no exterior ring /
empty exterior coordinates, whose `coords[0]` access raises inside the same
`try`) falls back to the cluster's seed polygon unchanged. -/
def emitGroup (unionFn : List Ring → Option Ring) (k : Nat)
    (group : List ParsedPoly) : RawPoly :=
  match group with
  | [] => { id := "", ptype := "", coordinates := [], reason := "" }
  | [single] => single.original
  | seed :: rest =>
    match unionFn ((seed :: rest).map (fun q => q.ring)) with
    | none => seed.original
    | some coords =>
      match coords with
      | [] => seed.original
      | h :: t =>
        let coords1 :=
          if (h :: t).getLast? = some h then (h :: t).dropLast else h :: t
        match coords1 with
        | [] => seed.original
        | h1 :: t1 =>
          let coords2 :=
            if (h1 :: t1).getLast? ≠ some h1 then (h1 :: t1) ++ [h1]
            else h1 :: t1
          { id := "merged_" ++ toString k
            ptype := "merged"
            coordinates := coords2
            reason := "Объединено " ++ toString (seed :: rest).length ++
              " полигонов" }

/-- The emission loop over all clusters; `k` is `len(merged_polygons)`, the
number of polygons already emitted (every cluster emits exactly one). -/
def emitGroups (unionFn : List Ring → Option Ring) :
    Nat → List (List ParsedPoly) → List RawPoly
  | _, [] => []
  | k, g :: gs => emitGroup unionFn k g :: emitGroups unionFn (k + 1) gs

/-- `CalmRouteService._merge_intersecting_polygons`: empty input short-cut,
validation (explicit checks plus the abstracted `Polygon` construction
`polyOk`), grouping, emission.  When *no* polygon survives validation the
source returns the original input list unchanged (line 156-157). -/
def mergeIntersectingPolygons (polyOk : Ring → Bool)
    (inter : Ring → Ring → Bool) (unionFn : List Ring → Option Ring)
    (polygons : List RawPoly) : List RawPoly :=
  if polygons = [] then []
  else
    let shapely_polygons := parsePolys polyOk polygons
    if shapely_polygons = [] then polygons
    else
      emitGroups unionFn 0
        (groupBySeed (fun a b => inter a.ring b.ring) shapely_polygons)

/-! ### Lemmas about the merger -/

/-- The fuel argument of `groupBySeedAux` is irrelevant once it covers the
list length. -/
lemma groupBySeedAux_congr {α : Type} (inter : α → α → Bool) :
    ∀ (f1 f2 : Nat) (l : List α), l.length ≤ f1 → l.length ≤ f2 →
      groupBySeedAux inter f1 l = groupBySeedAux inter f2 l := by
  intro f1
  induction f1 with
  | zero =>
    intro f2 l h1 _
    cases l with
    | nil => cases f2 <;> rfl
    | cons p rest => simp at h1
  | succ n ih =>
    intro f2 l h1 h2
    cases l with
    | nil => cases f2 <;> rfl
    | cons p rest =>
      cases f2 with
      | zero => simp at h2
      | succ m =>
        simp only [groupBySeedAux]
        congr 1
        exact ih m _
          (le_trans (List.length_filter_le _ _) (Nat.le_of_succ_le_succ h1))
          (le_trans (List.length_filter_le _ _) (Nat.le_of_succ_le_succ h2))

lemma groupBySeed_nil {α : Type} (inter : α → α → Bool) :
    groupBySeed inter ([] : List α) = [] := rfl

/-- One unfolding of the clustering: the first cluster is the seed `p`
together with exactly the remaining polygons that intersect `p`, and the
rest are clustered among the polygons that do not intersect `p`. -/
lemma groupBySeed_cons {α : Type} (inter : α → α → Bool) (p : α)
    (rest : List α) :
    groupBySeed inter (p :: rest) =
      (p :: rest.filter (fun q => inter p q)) ::
        groupBySeed inter (rest.filter (fun q => !inter p q)) := by
  unfold groupBySeed
  simp only [List.length_cons, groupBySeedAux]
  congr 1
  exact groupBySeedAux_congr inter rest.length _ _
    (List.length_filter_le _ _) le_rfl

/-- Every cluster produced by `groupBySeed` is a seed followed by exactly the
direct intersectors of that seed among the polygons still pending when the
seed was reached. -/
lemma groupBySeed_shape {α : Type} (inter : α → α → Bool) :
    ∀ (l : List α) (g : List α), g ∈ groupBySeed inter l →
      ∃ seed pending, (seed :: pending).Sublist l ∧
        g = seed :: pending.filter (fun q => inter seed q) := by
  have key : ∀ (n : Nat) (l : List α), l.length ≤ n →
      ∀ g ∈ groupBySeed inter l,
        ∃ seed pending, (seed :: pending).Sublist l ∧
          g = seed :: pending.filter (fun q => inter seed q) := by
    intro n
    induction n with
    | zero =>
      intro l hl g hg
      cases l with
      | nil => simp [groupBySeed_nil] at hg
      | cons p rest => simp at hl
    | succ n ih =>
      intro l hl g hg
      cases l with
      | nil => simp [groupBySeed_nil] at hg
      | cons p rest =>
        rw [groupBySeed_cons] at hg
        rcases List.mem_cons.mp hg with hg | hg
        · exact ⟨p, rest, List.Sublist.refl _, hg⟩
        · obtain ⟨seed, pending, hsub, hgeq⟩ :=
            ih (rest.filter (fun q => !inter p q))
              (le_trans (List.length_filter_le _ _)
                (Nat.le_of_succ_le_succ hl)) g hg
          exact ⟨seed, pending,
            (hsub.trans (List.filter_sublist rest)).trans
              (List.sublist_cons_self p rest), hgeq⟩
  intro l g hg
  exact key l.length l le_rfl g hg

/-- Members of clusters come from the clustered list. -/
lemma mem_of_mem_groupBySeed {α : Type} {inter : α → α → Bool}
    {l g : List α} {x : α} (hg : g ∈ groupBySeed inter l) (hx : x ∈ g) :
    x ∈ l := by
  obtain ⟨seed, pending, hsub, rfl⟩ := groupBySeed_shape inter l g hg
  rcases List.mem_cons.mp hx with rfl | hx
  · exact hsub.subset (List.mem_cons_self _ _)
  · exact hsub.subset
      (List.mem_cons_of_mem _ (List.mem_of_mem_filter hx))

/-- Closing a nonempty ring makes its first and last entries agree. -/
lemma closeRing_closed (c0 : Coord) (cs : List Coord) :
    (closeRing (c0 :: cs)).head? = (closeRing (c0 :: cs)).getLast? := by
  show (if (c0 :: cs).getLast? ≠ some c0 then (c0 :: cs) ++ [c0]
      else c0 :: cs).head? =
    (if (c0 :: cs).getLast? ≠ some c0 then (c0 :: cs) ++ [c0]
      else c0 :: cs).getLast?
  by_cases hcl : (c0 :: cs).getLast? = some c0
  · rw [if_neg (not_not_intro hcl), hcl]
    rfl
  · rw [if_pos hcl, List.getLast?_concat]
    rfl

/-- A successfully parsed polygon records its input unchanged as `original`. -/
lemma parseOne_original {polyOk : Ring → Bool} {i : Nat} {p : RawPoly}
    {pp : ParsedPoly} (h : parseOne polyOk i p = some pp) :
    pp.original = p := by
  unfold parseOne at h
  split at h
  · exact absurd h (by simp)
  · split at h
    · split at h
      · split at h
        · simp only [Option.some.injEq] at h
          subst h
          rfl
        · exact absurd h (by simp)
      · exact absurd h (by simp)
    · exact absurd h (by simp)

/-- A successfully parsed polygon passed the well-formedness checks of the
source (at least three coordinate entries, two-element first entry, a
successful `Polygon` construction), and the ring handed to the geometric
predicates is closed. -/
lemma parseOne_wellFormed {polyOk : Ring → Bool} {i : Nat} {p : RawPoly}
    {pp : ParsedPoly} (h : parseOne polyOk i p = some pp) :
    3 ≤ p.coordinates.length ∧
    (∃ c0 cs, p.coordinates = c0 :: cs ∧ c0.length = 2) ∧
    polyOk pp.ring = true ∧
    pp.ring.head? = pp.ring.getLast? := by
  unfold parseOne at h
  split at h
  case _ heq => exact absurd h (by simp)
  case _ c0 cs heq =>
    split at h
    case isTrue hlen =>
      split at h
      case isTrue hc0 =>
        split at h
        case isTrue hok =>
          simp only [Option.some.injEq] at h
          subst h
          exact ⟨heq ▸ hlen, ⟨c0, cs, heq, hc0⟩, hok, closeRing_closed c0 cs⟩
        case isFalse => exact absurd h (by simp)
      case isFalse => exact absurd h (by simp)
    case isFalse => exact absurd h (by simp)

/-- Every element of the parsed list arises from a successful `parseOne` on a
member of the input list. -/
lemma mem_parsePolysFrom {polyOk : Ring → Bool} {pp : ParsedPoly} :
    ∀ (i : Nat) (l : List RawPoly), pp ∈ parsePolysFrom polyOk i l →
      ∃ j p, p ∈ l ∧ parseOne polyOk j p = some pp := by
  intro i l
  induction l generalizing i with
  | nil => intro h; simp [parsePolysFrom] at h
  | cons p ps ih =>
    intro h
    unfold parsePolysFrom at h
    split at h
    case _ pp' hp =>
      rcases List.mem_cons.mp h with rfl | h
      · exact ⟨i, p, List.mem_cons_self _ _, hp⟩
      · obtain ⟨j, q, hq, hqp⟩ := ih (i + 1) h
        exact ⟨j, q, List.mem_cons_of_mem _ hq, hqp⟩
    case _ hp =>
      obtain ⟨j, q, hq, hqp⟩ := ih (i + 1) h
      exact ⟨j, q, List.mem_cons_of_mem _ hq, hqp⟩

/-- Emission of one cluster either yields a synthesized `"merged"` polygon or
passes through the `original` of the cluster's seed. -/
lemma emitGroup_cases (unionFn : List Ring → Option Ring) (k : Nat)
    (seed : ParsedPoly) (rest : List ParsedPoly) :
    (emitGroup unionFn k (seed :: rest)).ptype = "merged" ∨
      emitGroup unionFn k (seed :: rest) = seed.original := by
  cases rest with
  | nil => right; rfl
  | cons r rs =>
    rcases hu : unionFn ((seed :: r :: rs).map (fun q => q.ring)) with _ | coords
    all_goals simp only [List.map_cons] at hu
    · right
      simp [emitGroup, hu]
    · cases coords with
      | nil => right; simp [emitGroup, hu]
      | cons h t =>
        by_cases hdup : (h :: t).getLast? = some h
        · cases hlast : (h :: t).dropLast with
          | nil => right; simp [emitGroup, hu, hdup, hlast]
          | cons h1 t1 => left; simp [emitGroup, hu, hdup, hlast]
        · left; simp [emitGroup, hu, hdup]

/-- Every cluster contributes exactly one output polygon. -/
lemma emitGroups_length (unionFn : List Ring → Option Ring) :
    ∀ (k : Nat) (groups : List (List ParsedPoly)),
      (emitGroups unionFn k groups).length = groups.length := by
  intro k groups
  induction groups generalizing k with
  | nil => rfl
  | cons g gs ih => simp [emitGroups, ih]

/-- Every output polygon of the emission loop is the emission of one of the
clusters. -/
lemma mem_emitGroups {unionFn : List Ring → Option Ring} {r : RawPoly} :
    ∀ (k : Nat) (groups : List (List ParsedPoly)),
      r ∈ emitGroups unionFn k groups →
        ∃ g ∈ groups, ∃ j, r = emitGroup unionFn j g := by
  intro k groups
  induction groups generalizing k with
  | nil => intro h; simp [emitGroups] at h
  | cons g gs ih =>
    intro h
    simp only [emitGroups] at h
    rcases List.mem_cons.mp h with h | h
    · exact ⟨g, List.mem_cons_self _ _, k, h⟩
    · obtain ⟨g', hg', j, hj⟩ := ih (k + 1) h
      exact ⟨g', List.mem_cons_of_mem _ hg', j, hj⟩

/-! ### Sample data for concrete evaluations -/

/-- A well-formed closed triangle ring. -/
def ringA : Ring := [[0, 0], [0, 1], [1, 1], [0, 0]]

/-- A second well-formed closed triangle ring. -/
def ringB : Ring := [[2, 2], [2, 3], [3, 3], [2, 2]]

/-- A raw polygon dictionary carrying `ringA`. -/
def rawA : RawPoly :=
  { id := "a", ptype := "noise", coordinates := ringA, reason := "" }

/-- A raw polygon dictionary carrying `ringB`. -/
def rawB : RawPoly :=
  { id := "b", ptype := "crowd", coordinates := ringB, reason := "" }

/-- A validated polygon built from `ringA`. -/
def pA : ParsedPoly := ⟨0, ringA, rawA⟩

/-- A validated polygon built from `ringB`. -/
def pB : ParsedPoly := ⟨1, ringB, rawB⟩

/-- An intersection test that is always true. -/
def interAll : Ring → Ring → Bool := fun _ _ => true

/-- An intersection relation on indices forming the chain `0–1–2`
(`0` and `2` intersect `1` but not each other). -/
def chainInter : Nat → Nat → Bool := fun a b =>
  (a == 0 && b == 1) || (a == 1 && b == 0) || (a == 1 && b == 2) ||
    (a == 2 && b == 1)

/-- A malformed polygon: its ring has only two coordinate entries, failing
the merger's `len(coords) >= 3` check. -/
def badPoly : RawPoly :=
  { id := "bad", ptype := "noise", coordinates := [[0, 0], [1, 1]],
    reason := "" }

/-- A well-formed polygon accepted by the merger's validation. -/
def goodPoly : RawPoly :=
  { id := "good", ptype := "noise", coordinates := ringA, reason := "" }

/-- A polygon passing the explicit checks (3 entries, 2-element first
entry) whose second entry has arity 1, so the shapely `Polygon`
construction raises on it. -/
def mixedPoly : RawPoly :=
  { id := "mixed", ptype := "noise", coordinates := [[0, 0], [5], [1, 1]],
    reason := "" }

/-- A concrete stand-in for shapely's `Polygon` construction success:
every coordinate entry of the ring must be a `[lon, lat]` pair. -/
def shapelyOk : Ring → Bool := fun r => r.all (fun c => c.length == 2)

/-! ### Claim theorems about the merger -/

/-- **C4**: the merger's clustering is single-link from the seed only: every
cluster consists of one seed polygon plus exactly those not-yet-clustered
polygons whose rings directly intersect the seed's ring (newly added members
are never re-tested against each other), and clusters are not full connected
components of the intersection graph: on the chain `0–1–2` the clusters are
`[0, 1]` and `[2]` even though `1` intersects `2`. -/
theorem merge_clustering_single_link_from_seed :
    (∀ (inter : Ring → Ring → Bool) (l : List ParsedPoly),
        ∀ g ∈ groupBySeed (fun a b => inter a.ring b.ring) l,
          ∃ seed pending, (seed :: pending).Sublist l ∧
            g = seed :: pending.filter (fun q => inter seed.ring q.ring)) ∧
    (groupBySeed chainInter [0, 1, 2] = [[0, 1], [2]] ∧
      chainInter 1 2 = true) := by
  constructor
  · intro inter l g hg
    exact groupBySeed_shape _ l g hg
  · exact ⟨rfl, rfl⟩

/-- Witness for `merge_clustering_single_link_from_seed`: its clustered-shape
component applied to the concrete singleton clustering of `pA`. -/
theorem merge_clustering_single_link_from_seed_witness :
    ∃ seed pending, (seed :: pending).Sublist [pA] ∧
      [pA] = seed :: pending.filter (fun q => interAll seed.ring q.ring) :=
  merge_clustering_single_link_from_seed.1 interAll [pA] [pA] (by
    rw [show groupBySeed (fun a b => interAll a.ring b.ring) [pA] = [[pA]]
      from rfl]
    exact List.mem_singleton_self _)

/-- **C5**: for a cluster of size greater than 1 whose union fails (`none`
models both a raised exception and a result with no exterior ring), the
merger emits the cluster's seed polygon unchanged; emission is total and
produces exactly one output polygon per cluster, so no cluster is dropped. -/
theorem merge_union_failure_falls_back_to_seed
    (unionFn : List Ring → Option Ring) (k : Nat) (seed r : ParsedPoly)
    (rs : List ParsedPoly) (groups : List (List ParsedPoly))
    (hfail : unionFn ((seed :: r :: rs).map (fun q => q.ring)) = none) :
    emitGroup unionFn k (seed :: r :: rs) = seed.original ∧
    (emitGroups unionFn k groups).length = groups.length := by
  constructor
  · simp only [List.map_cons] at hfail
    simp [emitGroup, hfail]
  · exact emitGroups_length unionFn k groups

/-- Witness for `merge_union_failure_falls_back_to_seed` at a concrete
two-element cluster with an always-failing union. -/
theorem merge_union_failure_falls_back_to_seed_witness :
    emitGroup (fun _ => none) 0 [pA, pB] = pA.original ∧
    (emitGroups (fun _ => none) 0 [[pA], [pB]]).length =
      [[pA], [pB]].length :=
  merge_union_failure_falls_back_to_seed (fun _ => none) 0 pA pB [] [[pA], [pB]]
    rfl

/-- **C9**: merging a list containing exactly one polygon returns that
polygon unchanged — the original dictionary with its ring content preserved —
whether the polygon passes validation (singleton cluster passes through the
original) or fails it (the parsed list is empty and the input is returned). -/
theorem merge_singleton_returns_polygon_unchanged
    (polyOk : Ring → Bool) (inter : Ring → Ring → Bool)
    (unionFn : List Ring → Option Ring) (p : RawPoly) :
    mergeIntersectingPolygons polyOk inter unionFn [p] = [p] := by
  unfold mergeIntersectingPolygons
  rw [if_neg (by simp)]
  cases hp : parseOne polyOk 0 p with
  | none => simp [parsePolys, parsePolysFrom, hp]
  | some pp =>
    have hor := parseOne_original hp
    simp [parsePolys, parsePolysFrom, hp, groupBySeed, groupBySeedAux,
      emitGroups, emitGroup, hor]

/-- Witness for `merge_singleton_returns_polygon_unchanged` at a concrete
malformed singleton input. -/
theorem merge_singleton_returns_polygon_unchanged_witness :
    mergeIntersectingPolygons (fun _ => true) interAll (fun _ => none)
      [badPoly] = [badPoly] :=
  merge_singleton_returns_polygon_unchanged (fun _ => true) interAll
    (fun _ => none) badPoly

/-- **C8 counterexample**: a batch in which no ring survives validation is
returned unchanged by the merger — the source's
`if not shapely_polygons: return polygons` fallback — so malformed rings do
appear in the output, contradicting the claim that they appear in no output
cluster.  Exhibited twice: a lone 2-point ring, and a batch of a
construction-failing ring (mixed-arity entries) together with a 2-point
ring, both emitted unchanged. -/
theorem merge_malformed_survives_when_none_parse :
    badPoly.coordinates.length < 3 ∧
    mergeIntersectingPolygons (fun _ => true) interAll (fun _ => none)
      [badPoly] = [badPoly] ∧
    shapelyOk (closeRing mixedPoly.coordinates) = false ∧
    mergeIntersectingPolygons shapelyOk interAll (fun _ => none)
      [mixedPoly, badPoly] = [mixedPoly, badPoly] := by
  exact ⟨by decide, rfl, rfl, rfl⟩

/-- **C8 amended**: provided at least one polygon of the batch passes
validation (the explicit checks *and* the `Polygon` construction `polyOk`),
every output polygon is either a synthesized `"merged"` polygon or the
original of a successfully validated polygon — malformed inputs are skipped
without aborting the batch — and every validated polygon passed the `>= 3`
points / 2-element-first-entry checks and the construction, with its ring
closed before any intersection testing.  (When no polygon validates, the
input list is returned unchanged instead, per the counterexample.) -/
theorem merge_skips_malformed_when_some_parse
    (polyOk : Ring → Bool) (inter : Ring → Ring → Bool)
    (unionFn : List Ring → Option Ring) (polygons : List RawPoly)
    (hsome : parsePolys polyOk polygons ≠ []) :
    (∀ r ∈ mergeIntersectingPolygons polyOk inter unionFn polygons,
        r.ptype = "merged" ∨
          ∃ pp ∈ parsePolys polyOk polygons, r = pp.original) ∧
    (∀ pp ∈ parsePolys polyOk polygons, ∃ p ∈ polygons,
        pp.original = p ∧ 3 ≤ p.coordinates.length ∧
        (∃ c0 cs, p.coordinates = c0 :: cs ∧ c0.length = 2) ∧
        polyOk pp.ring = true ∧
        pp.ring.head? = pp.ring.getLast?) := by
  constructor
  · intro r hr
    have hpolys : polygons ≠ [] := by
      intro h
      subst h
      exact hsome rfl
    simp only [mergeIntersectingPolygons] at hr
    rw [if_neg hpolys, if_neg hsome] at hr
    obtain ⟨g, hg, j, rfl⟩ := mem_emitGroups 0 _ hr
    obtain ⟨seed, pending, hsub, hgeq⟩ := groupBySeed_shape _ _ g hg
    subst hgeq
    rcases emitGroup_cases unionFn j seed _ with hm | hm
    · exact Or.inl hm
    · exact Or.inr ⟨seed,
        mem_of_mem_groupBySeed hg (List.mem_cons_self _ _), hm⟩
  · intro pp hpp
    obtain ⟨j, p, hp, hjp⟩ := mem_parsePolysFrom 0 polygons hpp
    have h1 := parseOne_wellFormed hjp
    exact ⟨p, hp, parseOne_original hjp, h1.1, h1.2.1, h1.2.2.1, h1.2.2.2⟩

/-- Witness for `merge_skips_malformed_when_some_parse`: its output
characterization applied to the concrete singleton batch `[goodPoly]` and
its output `goodPoly`, under the `shapelyOk` construction model. -/
theorem merge_skips_malformed_when_some_parse_witness :
    goodPoly.ptype = "merged" ∨
      ∃ pp ∈ parsePolys shapelyOk [goodPoly], goodPoly = pp.original :=
  (merge_skips_malformed_when_some_parse shapelyOk interAll (fun _ => none)
    [goodPoly]
    (by
      rw [show parsePolys shapelyOk [goodPoly] = [⟨0, ringA, goodPoly⟩]
        from rfl]
      exact List.cons_ne_nil _ _)).1 goodPoly (by
    rw [show mergeIntersectingPolygons shapelyOk interAll (fun _ => none)
      [goodPoly] = [goodPoly] from rfl]
    exact List.mem_singleton_self _)

/-! ## Request model, violation detector and route builder
(`backend/app/schemas/routing.py`, `backend/app/schemas/map_layers.py`,
`CalmRouteService`) -/

/-- `LayerType` from map_layers.py (a string enum). -/
inductive LayerType
  | noise
  | crowd
  | light
  | puddles
deriving Repr, DecidableEq

/-- The string value of a layer type (the enum's value, stored in the
problematic-polygon dictionary's `"type"` field). -/
def layerName : LayerType → String
  | .noise => "noise"
  | .crowd => "crowd"
  | .light => "light"
  | .puddles => "puddles"

/-- `AvoidOptions` from routing.py.  The integer thresholds are `Optional`
(pydantic defaults 75 / 4 / 50). -/
structure AvoidOptions where
  noise_above_db : Option ℤ
  crowd_level_above : Option ℤ
  puddles : Bool
  light_below_lux : Option ℤ
  stairs : Bool
  unpaved : Bool
deriving Repr, DecidableEq

/-- Python truthiness of an optional integer (`None` and `0` are falsy),
as used by `if avoid.noise_above_db and ...`. -/
def truthyOpt (o : Option ℤ) : Bool :=
  match o with
  | none => false
  | some n => n != 0

/-- `Location`, `RouteProfile`, `CalmRouteRequest` from routing.py.
`alternatives` is validated to `1..5` by pydantic; we model it as a natural
number. -/
structure Location where
  lat : ℚ
  lon : ℚ
deriving Repr, DecidableEq

structure RouteProfile where
  priorities : RoutePriorities
  avoid : AvoidOptions
deriving Repr, DecidableEq

structure CalmRouteRequest where
  start : Location
  end_ : Location
  profile : RouteProfile
  alternatives : Nat
deriving Repr, DecidableEq

/-- The metrics dictionary built per feature in
`_find_problematic_polygons` (lines 98-103). -/
structure FeatureMetrics where
  noise_db : ℚ
  crowd_level : ℚ
  light_lux : ℚ
  puddles : Bool
deriving Repr, DecidableEq

/-- `SegmentFeature` from map_layers.py, restricted to the fields the route
builder touches; `geometry_coordinates` is the GeoJSON `coordinates` list of
rings, of which the builder takes the first. -/
structure SegmentFeature where
  segment_id : String
  value : ℚ
  geometry_coordinates : List Ring
deriving Repr, DecidableEq

/-- The metrics dictionary of lines 98-103: the feature's value lands in the
slot matching the layer type, other slots get `0` / `False`; the puddles
slot is the flag `feature.value > 0.5`. -/
def featureMetrics (layer_type : LayerType) (feature : SegmentFeature) :
    FeatureMetrics :=
  { noise_db := if layer_type = .noise then feature.value else 0
    crowd_level := if layer_type = .crowd then feature.value else 0
    light_lux := if layer_type = .light then feature.value else 0
    puddles := if layer_type = .puddles then decide (feature.value > 0.5)
      else false }

/-- `CalmRouteService._violates_filters` (lines 227-262): one rule per
condition type; a threshold participates only when truthy (set and
non-zero), exactly as the Python `and`-chain evaluates. -/
def violatesFilters (metrics : FeatureMetrics) (request : CalmRouteRequest)
    (layer_type : LayerType) : Bool :=
  let avoid := request.profile.avoid
  match layer_type with
  | .noise =>
    match avoid.noise_above_db with
    | none => false
    | some t => t != 0 && decide ((t : ℚ) < metrics.noise_db)
  | .crowd =>
    match avoid.crowd_level_above with
    | none => false
    | some t => t != 0 && decide ((t : ℚ) < metrics.crowd_level)
  | .puddles => avoid.puddles && metrics.puddles
  | .light =>
    match avoid.light_below_lux with
    | none => false
    | some t => t != 0 && decide (metrics.light_lux < (t : ℚ))

/-- `CalmRouteService._find_problematic_polygons` (lines 69-114), with the
already-fetched layer response (`map_service.get_all_layers`) passed in as
`all_layers`.  The collection guard in the source is the literal `if True:`
— `_violates_filters` is never invoked — so every fetched feature is
collected, with its first geometry ring, the layer's name as `"type"` and an
empty `"reason"`.  The `coordinates[0]` access is modelled with `headD []`:
the source would raise `IndexError` on a feature whose GeoJSON polygon has
an empty ring list, a corner no theorem below relies on (all their inputs
carry at least one ring, or none at all). -/
def findProblematicPolygons
    (all_layers : List (LayerType × List SegmentFeature))
    (_request : CalmRouteRequest) : List RawPoly :=
  all_layers.flatMap (fun lf =>
    lf.2.filterMap (fun feature =>
      if true then
        some { id := feature.segment_id
               ptype := layerName lf.1
               coordinates := feature.geometry_coordinates.headD []
               reason := "" }
      else none))

/-- `RouteGeometry` from routing.py. -/
structure RouteGeometry where
  type : String
  coordinates : List (List ℚ)
deriving Repr, DecidableEq

/-- `RouteExplanation` from routing.py. -/
structure RouteExplanation where
  segment : String
  reason : String
deriving Repr, DecidableEq

/-- `RouteWarning` from routing.py. -/
structure RouteWarning where
  location : List ℚ
  message : String
deriving Repr, DecidableEq

/-- `Route` from routing.py (the calm-route path always leaves `warnings`
at its default `[]`). -/
structure Route where
  id : String
  name : String
  geometry : RouteGeometry
  metrics : RouteMetrics
  calm_score : ℚ
  explanations : List RouteExplanation
  warnings : List RouteWarning
deriving Repr, DecidableEq

/-- `CalmRouteResponse` from routing.py (`generated_at`, a wall-clock
timestamp default, is not modelled). -/
structure CalmRouteResponse where
  routes : List Route
deriving Repr, DecidableEq

/-- One route item of the 2GIS response (`route.get("result", [])`
entries), restricted to the fields the converter reads; the LINESTRING
geometry parsing of `_extract_route_geometry` is abstracted behind the
`extractGeom` parameter of the converter. -/
structure GisRouteItem where
  id : Option String
  total_distance : Option ℤ
  total_duration : Option ℤ
  algorithm : Option String
deriving Repr, DecidableEq

/-- The 2GIS route response dictionary (`result` defaulting to `[]`). -/
structure GisRoute where
  result : List GisRouteItem
deriving Repr, DecidableEq

/-- `random.uniform(a, b)` applied to a raw draw `u ∈ [0, 1]`. -/
def uniform (a b u : ℚ) : ℚ := a + (b - a) * u

/-- `CalmRouteService._extract_route_metrics` (lines 425-442): distance and
duration come from the route item (defaults 1000 m / 720 s, floor-divided
by 60); the accessibility metrics are demo randomness — `round(
random.uniform(60, 80), 1)` and `round(random.uniform(1, 5), 1)` — modelled
by the raw draw pair `u`. -/
def extractRouteMetrics (route_item : GisRouteItem) (u : ℚ × ℚ) :
    RouteMetrics :=
  let distance_m := route_item.total_distance.getD 1000
  let duration_sec := route_item.total_duration.getD 720
  let duration_min := Int.fdiv duration_sec 60
  let avg_noise_db := uniform 60 80 u.1
  let avg_crowd := uniform 1 5 u.2
  { distance_m := distance_m
    duration_min := duration_min
    avg_noise_db := round1 avg_noise_db
    avg_crowd := round1 avg_crowd }

/-- `CalmRouteService._generate_explanations` (lines 455-486): one
explanation per truthy avoidance threshold; the route item itself is not
consulted. -/
def generateExplanations (_route_item : GisRouteItem)
    (request : CalmRouteRequest) : List RouteExplanation :=
  let avoid := request.profile.avoid
  (if truthyOpt avoid.noise_above_db then
    [⟨"Весь маршрут",
      "Избегаем шум выше " ++ toString (avoid.noise_above_db.getD 0) ++
        "дБ"⟩]
  else []) ++
  (if truthyOpt avoid.crowd_level_above then
    [⟨"Весь маршрут",
      "Избегаем толпу выше уровня " ++
        toString (avoid.crowd_level_above.getD 0)⟩]
  else []) ++
  (if avoid.puddles then
    [⟨"Весь маршрут", "Избегаем участки с лужами"⟩]
  else []) ++
  (if truthyOpt avoid.light_below_lux then
    [⟨"Весь маршрут",
      "Избегаем плохое освещение ниже " ++
        toString (avoid.light_below_lux.getD 0) ++ "лк"⟩]
  else [])

/-- `CalmRouteService._get_route_name` (lines 488-497). -/
def getRouteName (route_item : GisRouteItem) (index : Nat) : String :=
  let algorithm := route_item.algorithm.getD ""
  if algorithm = "кратчайший" then "Самый короткий маршрут"
  else if algorithm = "быстрый" then "Самый быстрый маршрут"
  else "Маршрут " ++ toString (index + 1)

/-- `CalmRouteService._create_fallback_route` (lines 499-528). -/
def createFallbackRoute (request : CalmRouteRequest) : CalmRouteResponse :=
  { routes := [
      { id := "fallback_route"
        name := "Базовый маршрут"
        geometry :=
          { type := "LineString"
            coordinates :=
              [[request.start.lon, request.start.lat],
               [request.end_.lon, request.end_.lat]] }
        metrics :=
          { distance_m := 1200, duration_min := 15, avg_noise_db := 70,
            avg_crowd := 3 }
        calm_score := 6
        explanations := [⟨"Прямой маршрут", "2GIS API недоступен"⟩]
        warnings := [] }] }

/-- `CalmRouteService._convert_route_to_response` (lines 341-390): empty
provider result falls back; otherwise at most 3 route items are converted
(`route_data[:3]`), each with extracted geometry, randomized metrics (the
per-index draw `draws i`), calm score, explanations and a display name. -/
def convertRouteToResponse (extractGeom : GisRouteItem → RouteGeometry)
    (draws : Nat → ℚ × ℚ) (route : GisRoute)
    (request : CalmRouteRequest) : CalmRouteResponse :=
  let route_data := route.result
  if route_data = [] then createFallbackRoute request
  else
    { routes := (route_data.take 3).enum.map (fun iitem =>
        let i := iitem.1
        let route_item := iitem.2
        let geometry := extractGeom route_item
        let metrics := extractRouteMetrics route_item (draws i)
        let calm_score := calculateCalmScore metrics
        let explanations := generateExplanations route_item request
        let route_name := getRouteName route_item i
        { id := route_item.id.getD ("route_" ++ toString (i + 1))
          name := route_name
          geometry := geometry
          metrics := metrics
          calm_score := calm_score
          explanations := explanations
          warnings := [] }) }

/-- `CalmRouteService.build_calm_route` (lines 15-67).  External calls are
parameters: `getRoute excl` is `gis_service.get_route` (with `none` for the
base call and `some excludes` for the re-routed call), `all_layers` is the
response of `map_service.get_all_layers` for the route's bbox,
`createExcludePolygon` is `gis_service.create_exclude_polygon`.  The result
is `Option`al because the source's final `else` branch only prints and
falls off the end of the function: Python implicitly returns `None` there
despite the `-> CalmRouteResponse` annotation. -/
def buildCalmRoute (getRoute : Option (List Ring) → Option GisRoute)
    (all_layers : List (LayerType × List SegmentFeature))
    (createExcludePolygon : Ring → Ring) (polyOk : Ring → Bool)
    (inter : Ring → Ring → Bool) (unionFn : List Ring → Option Ring)
    (extractGeom : GisRouteItem → RouteGeometry) (draws : Nat → ℚ × ℚ)
    (request : CalmRouteRequest) : Option CalmRouteResponse :=
  match getRoute none with
  | none => some (createFallbackRoute request)
  | some base_route =>
    let problematic_polygons := findProblematicPolygons all_layers request
    if problematic_polygons ≠ [] then
      let merged_polygons :=
        mergeIntersectingPolygons polyOk inter unionFn problematic_polygons
      let exclude_polygons :=
        (merged_polygons.map
          (fun polygon => createExcludePolygon polygon.coordinates)).take 20
      match getRoute (some exclude_polygons) with
      | some calm_route =>
        some (convertRouteToResponse extractGeom draws calm_route request)
      | none =>
        some (convertRouteToResponse extractGeom draws base_route request)
    else none

/-! ## The weighted-scoring path (`RoutingService`, routing_service.py) -/

/-- The pydantic-default avoidance/priority profile
(`noise_above_db=75, crowd_level_above=4, puddles=False,
light_below_lux=50, stairs=True, unpaved=False`; weights 0.5/0.4/0.1). -/
def defaultProfile : RouteProfile :=
  { priorities := ⟨0.5, 0.4, 0.1⟩
    avoid := ⟨some 75, some 4, false, some 50, true, false⟩ }

/-- A request asking for 2 alternatives. -/
def request2Alt : CalmRouteRequest :=
  { start := ⟨55.755, 37.617⟩, end_ := ⟨55.76, 37.625⟩
    profile := defaultProfile, alternatives := 2 }

/-- A provider route item with explicit distance and duration. -/
def demoItem : GisRouteItem :=
  { id := some "r1", total_distance := some 1200, total_duration := some 720
    algorithm := none }

/-- A provider response offering three route alternatives. -/
def threeItemRoute : GisRoute := ⟨[demoItem, demoItem, demoItem]⟩

/-- A trivial geometry extractor standing in for the LINESTRING parser. -/
def demoGeomFn : GisRouteItem → RouteGeometry :=
  fun _ => ⟨"LineString", []⟩

/-- A constant random source. -/
def demoDraws : Nat → ℚ × ℚ := fun _ => (0, 0)

/-- A layer response with no features in any of the four layers. -/
def emptyLayers : List (LayerType × List SegmentFeature) :=
  [(LayerType.noise, []), (LayerType.crowd, []), (LayerType.light, []),
    (LayerType.puddles, [])]

/-- A noise feature at 30 dB — far below the default 75 dB threshold, so it
violates no avoidance rule. -/
def quietFeature : SegmentFeature :=
  { segment_id := "seg1", value := 30, geometry_coordinates := [ringA] }

/-- The problematic-polygon dictionary the collector builds from
`quietFeature`. -/
def quietRaw : RawPoly :=
  { id := "seg1", ptype := "noise", coordinates := ringA, reason := "" }

/-- Clamping `min 10 (max 0 x)` always lands in `[0, 10]`. -/
lemma clamp_bounds (x : ℚ) : 0 ≤ min 10 (max 0 x) ∧ min 10 (max 0 x) ≤ 10 :=
  ⟨le_min (by norm_num) (le_max_left 0 x), min_le_left _ _⟩

/-- **C3**: for all route metrics, the calm-route path's calm score equals
exactly the spec formula `clamp(0, 10, round((noiseScore×0.6 +
crowdScore×0.4) × 10, 1))` with `noiseScore = max(0, 10 − (avgNoiseDb −
40)/5)` and `crowdScore = 10 − (avgCrowd − 1) × 2.5`. -/
theorem calm_score_matches_spec_formula (m : RouteMetrics) :
    calculateCalmScore m = specCalmScore m := rfl

/-- Closed-form witness for `calm_score_matches_spec_formula` (it has no
propositional hypotheses, but we record a concrete evaluation anyway as a
sanity check of the shared formula). -/
theorem calm_score_matches_spec_formula_witness :
    calculateCalmScore ⟨1200, 15, 70, 3⟩ = specCalmScore ⟨1200, 15, 70, 3⟩ :=
  calm_score_matches_spec_formula ⟨1200, 15, 70, 3⟩

/-- **C6**: both calm-score variants (the fixed 0.6/0.4 variant and the
weighted variant with the distance term) return a value in `[0, 10]`, for all
route metrics and all priority weights. -/
theorem calm_score_bounds (m : RouteMetrics) (p : RoutePriorities) :
    (0 ≤ calculateCalmScore m ∧ calculateCalmScore m ≤ 10) ∧
    (0 ≤ calculateWeightedCalmScore m p ∧
      calculateWeightedCalmScore m p ≤ 10) :=
  ⟨clamp_bounds _, clamp_bounds _⟩

/-! ## Remaining claim theorems -/

/-- **C1** (the code falls short of it): with a successful base-route call
and no features in any condition layer, `build_calm_route` reaches its final
`else` branch, which only prints — the function implicitly returns `None`
instead of converting the base route, despite its `-> CalmRouteResponse`
annotation. -/
theorem build_calm_route_none_when_no_problems :
    findProblematicPolygons emptyLayers request2Alt = [] ∧
    buildCalmRoute (fun _ => some threeItemRoute) emptyLayers id shapelyOk
      interAll (fun _ => none) demoGeomFn demoDraws request2Alt = none :=
  ⟨rfl, rfl⟩

/-- **C2** (the code falls short of it): a 30 dB noise feature violates no
avoidance rule of the default profile (`_violates_filters` is `False` on its
metrics), yet `_find_problematic_polygons` still collects it, because its
guard is the literal `if True:` rather than the rule table. -/
theorem collects_polygon_violating_no_filter :
    violatesFilters (featureMetrics LayerType.noise quietFeature)
      request2Alt LayerType.noise = false ∧
    findProblematicPolygons [(LayerType.noise, [quietFeature])] request2Alt =
      [quietRaw] :=
  ⟨rfl, rfl⟩

/-- Banker's rounding never exceeds an integer bound of its input. -/
lemma roundHalfEven_le {q : ℚ} {n : ℤ} (h : q ≤ (n : ℚ)) :
    roundHalfEven q ≤ n := by
  have h1 : ⌊q⌋ ≤ n := by
    have h2 : (⌊q⌋ : ℚ) ≤ (n : ℚ) := le_trans (Int.floor_le q) h
    exact_mod_cast h2
  have hfl : (⌊q⌋ : ℚ) ≤ q := Int.floor_le q
  simp only [roundHalfEven]
  split
  · exact h1
  · next hlt =>
    have hge : (1 : ℚ)/2 ≤ q - ⌊q⌋ := not_lt.mp hlt
    have h3 : ⌊q⌋ < n := by
      have h4 : (⌊q⌋ : ℚ) < (n : ℚ) := by linarith
      exact_mod_cast h4
    split
    · omega
    · split
      · exact h1
      · omega

/-- Banker's rounding never falls below an integer bound of its input. -/
lemma le_roundHalfEven {q : ℚ} {n : ℤ} (h : (n : ℚ) ≤ q) :
    n ≤ roundHalfEven q := by
  have h1 : n < ⌊q⌋ + 1 := by
    have h2 : (n : ℚ) < (⌊q⌋ : ℚ) + 1 :=
      lt_of_le_of_lt h (Int.lt_floor_add_one q)
    exact_mod_cast h2
  simp only [roundHalfEven]
  split
  · omega
  · split
    · omega
    · split <;> omega

/-- One-decimal rounding respects an upper integer bound. -/
lemma round1_le {q : ℚ} {n : ℤ} (h : q ≤ (n : ℚ)) : round1 q ≤ (n : ℚ) := by
  have h1 : roundHalfEven (q * 10) ≤ 10 * n := by
    refine roundHalfEven_le ?_
    push_cast
    linarith
  have h2 : (roundHalfEven (q * 10) : ℚ) ≤ ((10 * n : ℤ) : ℚ) := by
    exact_mod_cast h1
  push_cast at h2
  simp only [round1]
  linarith

/-- One-decimal rounding respects a lower integer bound. -/
lemma le_round1 {q : ℚ} {n : ℤ} (h : (n : ℚ) ≤ q) : (n : ℚ) ≤ round1 q := by
  have h1 : 10 * n ≤ roundHalfEven (q * 10) := by
    refine le_roundHalfEven ?_
    push_cast
    linarith
  have h2 : ((10 * n : ℤ) : ℚ) ≤ (roundHalfEven (q * 10) : ℚ) := by
    exact_mod_cast h1
  push_cast at h2
  simp only [round1]
  linarith

/-- `random.uniform(a, b)` stays within `[a, b]` for raw draws in `[0, 1]`. -/
lemma uniform_bounds {a b u : ℚ} (hab : a ≤ b) (h0 : 0 ≤ u) (h1 : u ≤ 1) :
    a ≤ uniform a b u ∧ uniform a b u ≤ b := by
  unfold uniform
  constructor
  · nlinarith
  · nlinarith

/-- A raw random draw pair, each component in `[0, 1]`. -/
def drawInRange (u : ℚ × ℚ) : Prop :=
  0 ≤ u.1 ∧ u.1 ≤ 1 ∧ 0 ≤ u.2 ∧ u.2 ≤ 1

/-- For any in-range draws, the calm score of the randomized metrics is
exactly 10: the noise score is at least 2 (since `avg_noise_db ≤ 80`) and
the crowd score at least 0 (since `avg_crowd ≤ 5`), so the pre-clamp value
is at least 12 and the clamp pins it to 10. -/
lemma calmScore_extract_eq_ten (item : GisRouteItem) (u : ℚ × ℚ)
    (hu : drawInRange u) :
    calculateCalmScore (extractRouteMetrics item u) = 10 := by
  obtain ⟨h1, h2, h3, h4⟩ := hu
  have hnoise : (extractRouteMetrics item u).avg_noise_db ≤ 80 := by
    show round1 (uniform 60 80 u.1) ≤ (80 : ℚ)
    have hb := (uniform_bounds (by norm_num : (60:ℚ) ≤ 80) h1 h2).2
    have := round1_le (n := 80) (by exact_mod_cast hb)
    exact_mod_cast this
  have hcrowd : (extractRouteMetrics item u).avg_crowd ≤ 5 := by
    show round1 (uniform 1 5 u.2) ≤ (5 : ℚ)
    have hb := (uniform_bounds (by norm_num : (1:ℚ) ≤ 5) h3 h4).2
    have := round1_le (n := 5) (by exact_mod_cast hb)
    exact_mod_cast this
  simp only [calculateCalmScore]
  set a := (extractRouteMetrics item u).avg_noise_db with ha
  set c := (extractRouteMetrics item u).avg_crowd with hc
  have hns : (2 : ℚ) ≤ max 0 (10 - (a - 40) / 5) :=
    le_trans (by linarith) (le_max_right 0 _)
  have hcs : (0 : ℚ) ≤ 10 - (c - 1) * 2.5 := by
    norm_num
    linarith
  have hinner : (12 : ℚ) ≤
      (max 0 (10 - (a - 40) / 5) * 0.6 + (10 - (c - 1) * 2.5) * 0.4) * 10 := by
    nlinarith [hns, hcs]
  have hr : ((12 : ℤ) : ℚ) ≤
      round1 ((max 0 (10 - (a - 40) / 5) * 0.6 +
        (10 - (c - 1) * 2.5) * 0.4) * 10) :=
    le_round1 (by exact_mod_cast hinner)
  rw [max_eq_right (le_trans (by norm_num) hr),
    min_eq_left (le_trans (by norm_num) hr)]

/-- **C10 counterexample**: on identical provider input, two calls of the
metric extraction can never yield different *calm scores*: for all in-range
random draws the calm score of the randomized metrics is constantly 10
(pre-clamp value is always at least 12), refuting the claim's "may return
different metrics and calm scores" in its calm-score part. -/
theorem extract_metrics_calm_score_never_differs :
    ¬ ∃ (item : GisRouteItem) (u v : ℚ × ℚ), drawInRange u ∧ drawInRange v ∧
        calculateCalmScore (extractRouteMetrics item u) ≠
          calculateCalmScore (extractRouteMetrics item v) := by
  rintro ⟨item, u, v, hu, hv, hne⟩
  exact hne ((calmScore_extract_eq_ten item u hu).trans
    (calmScore_extract_eq_ten item v hv).symm)

/-- **C10 amended**: the reported `avg_noise_db` / `avg_crowd` are drawn
from a uniform random source over `[60, 80]` and `[1, 5]`, independent of
the provider route item; `distance_m` and `duration_min` are deterministic
in the route item; identical calls may return different *metrics* — but
never different calm scores, which are constantly 10 for in-range draws. -/
theorem extract_metrics_random_independent :
    (∀ u : ℚ, 0 ≤ u → u ≤ 1 →
        (60 ≤ uniform 60 80 u ∧ uniform 60 80 u ≤ 80) ∧
        (1 ≤ uniform 1 5 u ∧ uniform 1 5 u ≤ 5)) ∧
    (∀ (item1 item2 : GisRouteItem) (u : ℚ × ℚ),
        (extractRouteMetrics item1 u).avg_noise_db =
          (extractRouteMetrics item2 u).avg_noise_db ∧
        (extractRouteMetrics item1 u).avg_crowd =
          (extractRouteMetrics item2 u).avg_crowd) ∧
    (∀ (item : GisRouteItem) (u v : ℚ × ℚ),
        (extractRouteMetrics item u).distance_m =
          (extractRouteMetrics item v).distance_m ∧
        (extractRouteMetrics item u).duration_min =
          (extractRouteMetrics item v).duration_min) ∧
    ((extractRouteMetrics demoItem (0, 0)).avg_noise_db ≠
        (extractRouteMetrics demoItem (1, 1)).avg_noise_db ∧
      drawInRange (0, 0) ∧ drawInRange (1, 1)) ∧
    (∀ (item : GisRouteItem) (u : ℚ × ℚ), drawInRange u →
        calculateCalmScore (extractRouteMetrics item u) = 10) := by
  refine ⟨?_, ?_, ?_, ⟨?_, ?_, ?_⟩, calmScore_extract_eq_ten⟩
  · intro u h0 h1
    exact ⟨uniform_bounds (by norm_num) h0 h1,
      uniform_bounds (by norm_num) h0 h1⟩
  · intro _ _ _
    exact ⟨rfl, rfl⟩
  · intro _ _ _
    exact ⟨rfl, rfl⟩
  · show round1 (uniform 60 80 (0 : ℚ)) ≠ round1 (uniform 60 80 (1 : ℚ))
    have e1 : round1 (uniform 60 80 (0 : ℚ)) = 60 := by
      have hl := round1_le (n := 60) (q := uniform 60 80 (0 : ℚ))
        (by norm_num [uniform])
      have hg := le_round1 (n := 60) (q := uniform 60 80 (0 : ℚ))
        (by norm_num [uniform])
      push_cast at hl hg
      linarith
    have e2 : round1 (uniform 60 80 (1 : ℚ)) = 80 := by
      have hl := round1_le (n := 80) (q := uniform 60 80 (1 : ℚ))
        (by norm_num [uniform])
      have hg := le_round1 (n := 80) (q := uniform 60 80 (1 : ℚ))
        (by norm_num [uniform])
      push_cast at hl hg
      linarith
    rw [e1, e2]
    norm_num
  · exact ⟨by norm_num, by norm_num, by norm_num, by norm_num⟩
  · exact ⟨by norm_num, by norm_num, by norm_num, by norm_num⟩

/-- Witness for `extract_metrics_random_independent`: its range and
constant-score components applied at the concrete draw `(1/2, 1/2)`. -/
theorem extract_metrics_random_independent_witness :
    ((60 ≤ uniform 60 80 (1/2) ∧ uniform 60 80 (1/2) ≤ 80) ∧
      (1 ≤ uniform 1 5 (1/2) ∧ uniform 1 5 (1/2) ≤ 5)) ∧
    calculateCalmScore (extractRouteMetrics demoItem (1/2, 1/2)) = 10 :=
  ⟨extract_metrics_random_independent.1 (1/2) (by norm_num) (by norm_num),
    extract_metrics_random_independent.2.2.2.2 demoItem (1/2, 1/2)
      ⟨by norm_num, by norm_num, by norm_num, by norm_num⟩⟩

end CalmRoute
